import Mathlib

/-!
Shallow embedding of the homework-status notification bot
(`homework.py` + `exceptions.py`) and verification of its specification.

JSON documents are modelled by the inductive `JSON`; Python exceptions by
`PyExc` (all constructors correspond to subclasses of Python's `Exception`,
so all are caught by an `except Exception` clause).  The network and the
messaging transport are oracles passed as explicit parameters.
-/

/-- A decoded JSON document, as produced by Python's `json` module
(`null` decodes to Python `None`, objects to `dict`, arrays to `list`). -/
inductive JSON where
  | null : JSON
  | bool : Bool → JSON
  | int : Int → JSON
  | str : String → JSON
  | arr : List JSON → JSON
  | obj : List (String × JSON) → JSON

/-- Python exceptions that the program can raise.  Every constructor models a
subclass of `Exception`, hence is caught by `except Exception`. -/
inductive PyExc where
  | typeError : String → PyExc
  | keyError : String → PyExc
  | attributeError : String → PyExc
  | connectionError : String → PyExc
  | statusCodeIsNot200Error : String → PyExc
  | jsonDecodeError : String → PyExc
  | noneEnvVarsError : String → PyExc
  | initBotError : String → PyExc
  | genericException : String → PyExc
deriving DecidableEq

/-- Association lookup, modelling Python `dict` access on the decoded JSON
objects (keys are unique in a decoded JSON object; first match wins). -/
def dictLookup {β : Type} : List (String × β) → String → Option β
  | [], _ => none
  | (k, v) :: rest, key => if key = k then some v else dictLookup rest key

/-- Python's `dict.get` cannot distinguish an absent key from a key whose
value is `None` (JSON `null`): both give Python `None`.  This collapses a
present-but-null field to `none`. -/
def pyNoneCollapse : Option JSON → Option JSON
  | some JSON.null => none
  | v => v

/-- A single-quote character, used for Python `repr` of strings and for
`str()` of a `KeyError` (which reprs its argument). -/
def pySQ : String := String.singleton (Char.ofNat 39)

mutual

/-- Python `repr` of a decoded JSON value (string escaping is not modelled;
no message proved about ever reprs a string containing a quote). -/
def pyRepr : JSON → String
  | JSON.null => "None"
  | JSON.bool b => if b then "True" else "False"
  | JSON.int n => toString n
  | JSON.str s => pySQ ++ s ++ pySQ
  | JSON.arr xs => "[" ++ pyReprSeq xs ++ "]"
  | JSON.obj fs => "\x7b" ++ pyReprFields fs ++ "\x7d"

/-- `repr` of the elements of a Python list, comma separated. -/
def pyReprSeq : List JSON → String
  | [] => ""
  | [x] => pyRepr x
  | x :: y :: rest => pyRepr x ++ ", " ++ pyReprSeq (y :: rest)

/-- `repr` of the items of a Python dict, comma separated. -/
def pyReprFields : List (String × JSON) → String
  | [] => ""
  | [(k, v)] => pySQ ++ k ++ pySQ ++ ": " ++ pyRepr v
  | (k, v) :: p :: rest =>
      pySQ ++ k ++ pySQ ++ ": " ++ pyRepr v ++ ", " ++ pyReprFields (p :: rest)

end

/-- Python `str()` of a decoded JSON value, as used by f-string
interpolation. -/
def pyStr : JSON → String
  | JSON.str s => s
  | v => pyRepr v

/-- Python `str()` of an exception, as used by f-string interpolation of a
caught error.  `str` of a `KeyError` is the `repr` of its argument (hence the
surrounding quotes); for the other modelled exception classes it is the
message itself. -/
def pyExcStr : PyExc → String
  | PyExc.keyError m => pySQ ++ m ++ pySQ
  | PyExc.typeError m => m
  | PyExc.attributeError m => m
  | PyExc.connectionError m => m
  | PyExc.statusCodeIsNot200Error m => m
  | PyExc.jsonDecodeError m => m
  | PyExc.noneEnvVarsError m => m
  | PyExc.initBotError m => m
  | PyExc.genericException m => m

/-- Python truthiness of an optional value, as tested by `if code or error:`
(`None`, `0`, `""`, `[]` and an empty dict are falsy). -/
def truthy : Option JSON → Bool
  | none => false
  | some JSON.null => false
  | some (JSON.bool b) => b
  | some (JSON.int n) => decide (n ≠ 0)
  | some (JSON.str s) => decide (s ≠ "")
  | some (JSON.arr xs) => !xs.isEmpty
  | some (JSON.obj fs) => !fs.isEmpty

/-- `isinstance(v, int)` on a decoded JSON value.  Python's `bool` is a
subclass of `int`, so decoded `true` and `false` also pass the check. -/
def JSON.isInstInt : JSON → Bool
  | JSON.int _ => true
  | JSON.bool _ => true
  | _ => false

/-- Python `d[k]` subscription: raises `KeyError(k)` when the key is absent
(a present `null` value is returned as-is, unlike `d.get(k)`). -/
def JSON.getItem (d : JSON) (k : String) : Except PyExc JSON :=
  match d with
  | JSON.obj fs =>
    match dictLookup fs k with
    | some v => Except.ok v
    | none => Except.error (PyExc.keyError k)
  | _ => Except.error (PyExc.typeError "object is not subscriptable")

/-- `RETRY_PERIOD = 600` (homework.py line 31). -/
def RETRY_PERIOD : Nat := 600

/-- `ENDPOINT` (homework.py line 32). -/
def ENDPOINT : String := "https://practicum.yandex.ru/api/user_api/homework_statuses/"

/-- `HOMEWORK_VERDICTS` (homework.py lines 34-38): the fixed verdict table. -/
def HOMEWORK_VERDICTS : List (String × String) :=
  [("approved", "Работа проверена: ревьюеру всё понравилось. Ура!"),
   ("reviewing", "Работа взята на проверку ревьюером."),
   ("rejected", "Работа проверена: у ревьюера есть замечания.")]

/-- `HOMEWORK_VERDICTS.get(status)` where `status` is an arbitrary decoded
JSON value: a list or dict key is unhashable and raises `TypeError`; any
other non-string value is hashable but never present in the table. -/
def verdictsGet : JSON → Except PyExc (Option String)
  | JSON.str s => Except.ok (dictLookup HOMEWORK_VERDICTS s)
  | JSON.arr _ => Except.error (PyExc.typeError "unhashable type: list")
  | JSON.obj _ => Except.error (PyExc.typeError "unhashable type: dict")
  | _ => Except.ok none

/-- The process environment: the three credential variables, each either
unset (`none`) or set to an arbitrary string (possibly empty). -/
structure Config where
  practicum_token : Option String
  telegram_token : Option String
  telegram_chat_id : Option String

/-- The list comprehension of `check_tokens` (homework.py line 48): the names
whose value is `None`, in declaration order. -/
def error_tokens (c : Config) : List String :=
  (if c.practicum_token = none then ["PRACTICUM_TOKEN"] else []) ++
  (if c.telegram_token = none then ["TELEGRAM_TOKEN"] else []) ++
  (if c.telegram_chat_id = none then ["TELEGRAM_CHAT_ID"] else [])

/-- `check_tokens` (homework.py lines 41-53): raises `NoneEnvVarsError`
naming the unset variables when any of the three is `None`. -/
def check_tokens (c : Config) : Except PyExc Unit :=
  if error_tokens c ≠ [] then
    Except.error (PyExc.noneEnvVarsError
      ("Программа остановлена. Отсутствуют переменные окружения: \"" ++
       String.intercalate ", " (error_tokens c) ++ "\""))
  else Except.ok ()

/-- A leveled log line. -/
inductive LogEntry where
  | debug : String → LogEntry
  | error : String → LogEntry
  | critical : String → LogEntry
deriving DecidableEq

/-- The messaging transport oracle for one `bot.send_message` call: `none`
when delivery succeeds, `some e` when the transport raises `e`. -/
def bot_send_message (te : Option PyExc) : Except PyExc Unit :=
  match te with
  | none => Except.ok ()
  | some e => Except.error e

/-- `send_message` (homework.py lines 56-62): attempts delivery; a success is
logged at debug level, any raised `Exception` is caught and logged at error
level.  The returned value carries the log lines produced. -/
def send_message (te : Option PyExc) (message : String) : Except PyExc (List LogEntry) :=
  match bot_send_message te with
  | Except.ok _ =>
      Except.ok [LogEntry.debug ("Удачная отправка сообщения: \"" ++ message ++ "\"")]
  | Except.error error =>
      Except.ok [LogEntry.error ("Ошибка отправки сообщения: \"" ++ pyExcStr error ++ "\".")]

/-- Outcome of the HTTP GET issued by `requests.get`: either the transport
raised a `requests.RequestException`, or a response arrived with a status
code and a body. -/
inductive Body where
  | decoded : JSON → Body
  | undecodable : String → Body

/-- An HTTP exchange result as seen by `get_api_answer`. -/
inductive HttpResult where
  | requestException : String → HttpResult
  | response : Nat → Body → HttpResult

/-- `json.JSONDecodeError(message)` with a single argument (homework.py
line 90): the constructor requires `(msg, doc, pos)`, so this call itself
raises `TypeError` before any `JSONDecodeError` exists; the descriptive
message computed on line 88 is discarded. -/
def jsonDecodeErrorOneArg : PyExc :=
  PyExc.typeError
    "JSONDecodeError.__init__ missing 2 required positional arguments: doc and pos"

/-- `get_api_answer` (homework.py lines 65-98).  `net` is the network oracle:
it maps the `from_date` parameter actually sent to the HTTP outcome.  The
first component records the `from_date` value of each request issued (empty
when the type check rejects the timestamp before any network call). -/
def get_api_answer (net : JSON → HttpResult) (timestamp : JSON) :
    List JSON × Except PyExc JSON :=
  if timestamp.isInstInt then
    ([timestamp],
      match net timestamp with
      | HttpResult.requestException err =>
          Except.error (PyExc.connectionError ("Ошибка соединения с сервером: " ++ err))
      | HttpResult.response status body =>
        if status ≠ 200 then
          Except.error (PyExc.statusCodeIsNot200Error
            ("Проблема с эндпоинтом \"" ++ ENDPOINT ++ "\". Код ответа API: " ++
             toString status))
        else
          match body with
          | Body.undecodable _ => Except.error jsonDecodeErrorOneArg
          | Body.decoded response_json =>
            match response_json with
            | JSON.obj fs =>
              let code := pyNoneCollapse (dictLookup fs "code")
              let error := pyNoneCollapse (dictLookup fs "error")
              if truthy code || truthy error then
                Except.error (PyExc.genericException
                  ("Отказ сервера. Детали запроса: Code: " ++
                   (match code with | some v => pyStr v | none => "None") ++
                   ", Error: " ++
                   (match error with | some v => pyStr v | none => "None")))
              else Except.ok response_json
            | _ => Except.error (PyExc.attributeError "object has no attribute get"))
  else
    ([], Except.error (PyExc.typeError "Передана дата не в формате Unix Timestamp"))

/-- `check_response` (homework.py lines 101-116). -/
def check_response (response : JSON) : Except PyExc (List JSON) :=
  match response with
  | JSON.obj fs =>
    match pyNoneCollapse (dictLookup fs "homeworks") with
    | none =>
        Except.error (PyExc.keyError "Отсутствие ожидаемого ключа \"homeworks\" в ответе API")
    | some homeworks =>
      match homeworks with
      | JSON.arr xs => Except.ok xs
      | _ => Except.error (PyExc.typeError "Ключ ответа API \"homeworks\" не является списком")
  | _ => Except.error (PyExc.typeError "Программа не получает cловарь в качестве ответа API")

/-- `parse_status` (homework.py lines 119-132). -/
def parse_status (homework : JSON) : Except PyExc String :=
  match homework with
  | JSON.obj fs =>
    match pyNoneCollapse (dictLookup fs "homework_name") with
    | none => Except.error (PyExc.keyError "Нет ключа \"homework_name\" в ответе API")
    | some homework_name =>
      match dictLookup fs "status" with
      | none => Except.error (PyExc.keyError "status")
      | some status =>
        match verdictsGet status with
        | Except.error e => Except.error e
        | Except.ok none =>
            Except.error (PyExc.keyError ("Неожиданный статус домашней работы: " ++ pyStr status))
        | Except.ok (some verdict) =>
            Except.ok ("Изменился статус проверки работы \"" ++ pyStr homework_name ++
                       "\". " ++ verdict)
  | _ => Except.error (PyExc.attributeError "object has no attribute get")

/-- The mutable state of `main`'s loop (homework.py lines 138, 144): the time
cursor `timestamp` and the last-sent message `old_message`.  The cursor is a
decoded JSON value because line 152 assigns `response['current_date']` to it
unchecked. -/
structure LoopState where
  timestamp : JSON
  old_message : String

/-- Result of the `try:` part of one loop iteration (homework.py lines
146-156): the state at the moment the block finished or raised, the
`from_date` values of the HTTP requests issued, the texts passed to
`send_message`, and the exception that escaped the block, if any. -/
structure TryOut where
  state : LoopState
  requests : List JSON
  notifierCalls : List String
  raised : Option PyExc

/-- Result of one full loop iteration: final state, requests issued, texts
passed to `send_message`, the sleeps performed (the `finally:` clause), and
an exception escaping the iteration (which would kill the process). -/
structure CycleResult where
  state : LoopState
  requests : List JSON
  notifierCalls : List String
  sleeps : List Nat
  uncaught : Option PyExc

/-- The body of the `try:` block (homework.py lines 147-156), parameterized
by the already-computed fetch outcome.  Mirrors the statement order: the
cursor is assigned from `response['current_date']` (line 152) before
`parse_status` runs (line 153), and `old_message` is updated (line 155)
before `send_message` is invoked (line 156). -/
def cycleTryCore (reqs : List JSON) (fetched : Except PyExc JSON)
    (te : Option PyExc) (s : LoopState) : TryOut :=
  match fetched with
  | Except.error e => ⟨s, reqs, [], some e⟩
  | Except.ok response =>
    match check_response response with
    | Except.error e => ⟨s, reqs, [], some e⟩
    | Except.ok homeworks =>
      match homeworks with
      | [] => ⟨s, reqs, [], none⟩
      | hw :: _ =>
        match response.getItem "current_date" with
        | Except.error e => ⟨s, reqs, [], some e⟩
        | Except.ok cd =>
          match parse_status hw with
          | Except.error e => ⟨⟨cd, s.old_message⟩, reqs, [], some e⟩
          | Except.ok new_message =>
            if s.old_message ≠ new_message then
              match send_message te new_message with
              | Except.ok _ => ⟨⟨cd, new_message⟩, reqs, [new_message], none⟩
              | Except.error e => ⟨⟨cd, new_message⟩, reqs, [new_message], some e⟩
            else ⟨⟨cd, s.old_message⟩, reqs, [], none⟩

/-- The `try:` block of one loop iteration, fetching through `net`. -/
def cycleTry (net : JSON → HttpResult) (te : Option PyExc) (s : LoopState) : TryOut :=
  cycleTryCore (get_api_answer net s.timestamp).1 (get_api_answer net s.timestamp).2 te s

/-- One full iteration of `main`'s `while True:` loop (homework.py lines
145-163): the `try:` block, then the `except Exception` handler (lines
157-161) building the failure notification with the same deduplication, then
the `finally: time.sleep(RETRY_PERIOD)` (lines 162-163). -/
def cycle (net : JSON → HttpResult) (te : Option PyExc) (s : LoopState) : CycleResult :=
  let t := cycleTry net te s
  match t.raised with
  | none => ⟨t.state, t.requests, t.notifierCalls, [RETRY_PERIOD], none⟩
  | some error =>
    let new_message := "Сбой в работе программы: " ++ pyExcStr error
    if t.state.old_message ≠ new_message then
      match send_message te new_message with
      | Except.ok _ =>
          ⟨⟨t.state.timestamp, new_message⟩, t.requests,
           t.notifierCalls ++ [new_message], [RETRY_PERIOD], none⟩
      | Except.error e =>
          ⟨⟨t.state.timestamp, new_message⟩, t.requests,
           t.notifierCalls ++ [new_message], [RETRY_PERIOD], some e⟩
    else ⟨t.state, t.requests, t.notifierCalls, [RETRY_PERIOD], none⟩

/-- The loop state at the top of the first iteration (homework.py lines
138, 144): the hardcoded cursor seed and an empty last-sent message. -/
def initialState : LoopState := ⟨JSON.int 1681635226, ""⟩

theorem send_message_isOk (te : Option PyExc) (m : String) :
    ∃ logs, send_message te m = Except.ok logs := by
  cases te <;> exact ⟨_, rfl⟩

theorem send_message_ne_error (te : Option PyExc) (m : String) (e : PyExc) :
    send_message te m ≠ Except.error e := by
  cases te <;> exact fun h => Except.noConfusion h

theorem cycleTryCore_inv (reqs : List JSON) (fetched : Except PyExc JSON)
    (te : Option PyExc) (s : LoopState) :
    (cycleTryCore reqs fetched te s).requests = reqs ∧
    ((cycleTryCore reqs fetched te s).notifierCalls = [] ∧
       (cycleTryCore reqs fetched te s).state.old_message = s.old_message ∨
     ∃ m, (cycleTryCore reqs fetched te s).notifierCalls = [m] ∧
       (cycleTryCore reqs fetched te s).state.old_message = m ∧
       s.old_message ≠ m ∧ (cycleTryCore reqs fetched te s).raised = none) ∧
    ((cycleTryCore reqs fetched te s).raised ≠ none →
       (cycleTryCore reqs fetched te s).notifierCalls = [] ∧
       (cycleTryCore reqs fetched te s).state.old_message = s.old_message) := by
  unfold cycleTryCore
  repeat' split
  all_goals simp_all [send_message_ne_error]

theorem cycle_requests (net : JSON → HttpResult) (te : Option PyExc) (s : LoopState) :
    (cycle net te s).requests = (get_api_answer net s.timestamp).1 := by
  have h := (cycleTryCore_inv (get_api_answer net s.timestamp).1
    (get_api_answer net s.timestamp).2 te s).1
  simp only [cycle, cycleTry]
  repeat' split
  all_goals simpa using h

theorem cycle_calls_inv (net : JSON → HttpResult) (te : Option PyExc) (s : LoopState) :
    ((cycle net te s).notifierCalls = [] ∧
       (cycle net te s).state.old_message = s.old_message) ∨
    (∃ m, (cycle net te s).notifierCalls = [m] ∧
       (cycle net te s).state.old_message = m ∧ s.old_message ≠ m) := by
  obtain ⟨hreq, hdisj, hexc⟩ :=
    cycleTryCore_inv (get_api_answer net s.timestamp).1 (get_api_answer net s.timestamp).2 te s
  simp only [cycle, cycleTry]
  split
  · rcases hdisj with ⟨a, b⟩ | ⟨m, a, b, c, _⟩
    · exact Or.inl ⟨a, b⟩
    · exact Or.inr ⟨m, a, b, c⟩
  · rename_i e heq
    have hx := hexc (by simp [heq])
    split
    · rename_i hne
      split
      · refine Or.inr ⟨_, ?_, rfl, ?_⟩
        · simp [hx.1]
        · rw [hx.2] at hne; exact hne
      · rename_i e2 heq2
        exact absurd heq2 (send_message_ne_error te _ e2)
    · exact Or.inl ⟨hx.1, hx.2⟩

/-- C2 counterexample: the submission record with a `homework_name` field
whose value is JSON `null` and status `approved` has a name field, but
`parse_status` fails with the missing-name `KeyError` instead of returning
the fixed-template sentence: `dict.get` cannot distinguish a null field from
an absent one. -/
theorem parse_status_counterexample :
    dictLookup [("homework_name", JSON.null), ("status", JSON.str "approved")] "homework_name"
      = some JSON.null ∧
    parse_status (JSON.obj [("homework_name", JSON.null), ("status", JSON.str "approved")])
      = Except.error (PyExc.keyError "Нет ключа \"homework_name\" в ответе API") :=
  ⟨rfl, rfl⟩

/-- C2 (amended): for every submission record whose name field is present
with a non-null value and whose status field holds a string, `parse_status`
returns the exact fixed-template sentence combining the name and the verdict
text for each of the three recognized status codes, and fails with the
unknown-status `KeyError` for any other status code. -/
theorem parse_status_spec (fs : List (String × JSON)) (v : JSON) (status : String)
    (hname : pyNoneCollapse (dictLookup fs "homework_name") = some v)
    (hstat : dictLookup fs "status" = some (JSON.str status)) :
    (status = "approved" → parse_status (JSON.obj fs) =
      Except.ok ("Изменился статус проверки работы \"" ++ pyStr v ++
        "\". Работа проверена: ревьюеру всё понравилось. Ура!")) ∧
    (status = "reviewing" → parse_status (JSON.obj fs) =
      Except.ok ("Изменился статус проверки работы \"" ++ pyStr v ++
        "\". Работа взята на проверку ревьюером.")) ∧
    (status = "rejected" → parse_status (JSON.obj fs) =
      Except.ok ("Изменился статус проверки работы \"" ++ pyStr v ++
        "\". Работа проверена: у ревьюера есть замечания.")) ∧
    (status ≠ "approved" → status ≠ "reviewing" → status ≠ "rejected" →
      parse_status (JSON.obj fs) =
        Except.error (PyExc.keyError ("Неожиданный статус домашней работы: " ++ status))) := by
  refine ⟨?_, ?_, ?_, ?_⟩
  · rintro rfl
    simp [parse_status, hname, hstat, verdictsGet, HOMEWORK_VERDICTS, dictLookup]
    rw [String.append_assoc]
    congr 1
  · rintro rfl
    simp [parse_status, hname, hstat, verdictsGet, HOMEWORK_VERDICTS, dictLookup]
    rw [String.append_assoc]
    congr 1
  · rintro rfl
    simp [parse_status, hname, hstat, verdictsGet, HOMEWORK_VERDICTS, dictLookup]
    rw [String.append_assoc]
    congr 1
  · intro h1 h2 h3
    simp [parse_status, hname, hstat, verdictsGet, HOMEWORK_VERDICTS, dictLookup,
      h1, h2, h3, pyStr]

/-- Witness for C2: for the record from Scenario A the result is exactly the
claimed sentence. -/
theorem parse_status_spec_witness :
    parse_status (JSON.obj [("homework_name", JSON.str "proj1"), ("status", JSON.str "approved")])
      = Except.ok "Изменился статус проверки работы \"proj1\". Работа проверена: ревьюеру всё понравилось. Ура!" := by
  have h := (parse_status_spec
    [("homework_name", JSON.str "proj1"), ("status", JSON.str "approved")]
    (JSON.str "proj1") "approved" rfl rfl).1 rfl
  exact h

/-- C3 counterexample: a configuration whose API token is set to the empty
string — hence not a non-empty string — nevertheless passes `check_tokens`,
so startup proceeds. -/
theorem check_tokens_counterexample :
    Config.practicum_token ⟨some "", some "token", some "chat"⟩ = some "" ∧
    check_tokens ⟨some "", some "token", some "chat"⟩ = Except.ok () :=
  ⟨rfl, rfl⟩

/-- C3 (amended): `check_tokens` succeeds exactly when all three credential
values are set (an empty string counts as set); otherwise it fails with
`NoneEnvVarsError` whose message names exactly the absent variables. -/
theorem check_tokens_spec (c : Config) :
    (check_tokens c = Except.ok () ↔ error_tokens c = []) ∧
    (error_tokens c ≠ [] → check_tokens c = Except.error (PyExc.noneEnvVarsError
       ("Программа остановлена. Отсутствуют переменные окружения: \"" ++
        String.intercalate ", " (error_tokens c) ++ "\""))) ∧
    ("PRACTICUM_TOKEN" ∈ error_tokens c ↔ c.practicum_token = none) ∧
    ("TELEGRAM_TOKEN" ∈ error_tokens c ↔ c.telegram_token = none) ∧
    ("TELEGRAM_CHAT_ID" ∈ error_tokens c ↔ c.telegram_chat_id = none) := by
  obtain ⟨p, t, ch⟩ := c
  cases p <;> cases t <;> cases ch <;>
    refine ⟨?_, ?_, ?_, ?_, ?_⟩ <;>
      simp [check_tokens, error_tokens]

/-- Witness for C3 (amended): with only the API token absent, `check_tokens`
fails naming exactly `PRACTICUM_TOKEN`. -/
theorem check_tokens_spec_witness :
    check_tokens ⟨none, some "token", some "chat"⟩ =
      Except.error (PyExc.noneEnvVarsError
        "Программа остановлена. Отсутствуют переменные окружения: \"PRACTICUM_TOKEN\"") := by
  have h := (check_tokens_spec ⟨none, some "token", some "chat"⟩).2.1 (by decide)
  exact h

/-- C6 counterexample: in the document with field `homeworks` present and
equal to JSON `null`, the field is present and is not a sequence, yet
`check_response` fails with the missing-key `KeyError` rather than the
wrong-type `TypeError`: `dict.get` returns Python `None` for a null value
exactly as for an absent key. -/
theorem check_response_counterexample :
    dictLookup [("homeworks", JSON.null)] "homeworks" = some JSON.null ∧
    check_response (JSON.obj [("homeworks", JSON.null)]) =
      Except.error (PyExc.keyError "Отсутствие ожидаемого ключа \"homeworks\" в ответе API") :=
  ⟨rfl, rfl⟩

/-- C6 (amended): `check_response` fails with `TypeError` (not-a-mapping)
when the document is not a mapping; fails with `KeyError` (missing key) when
the `homeworks` field is absent or its value is null; fails with `TypeError`
(wrong type) when the field holds a non-null value that is not a sequence;
and otherwise returns the (possibly empty) sequence unmodified. -/
theorem check_response_spec (doc : JSON) :
    ((∀ fs, doc ≠ JSON.obj fs) →
       check_response doc =
         Except.error (PyExc.typeError "Программа не получает cловарь в качестве ответа API")) ∧
    (∀ fs, doc = JSON.obj fs →
      ((pyNoneCollapse (dictLookup fs "homeworks") = none →
          check_response doc =
            Except.error (PyExc.keyError "Отсутствие ожидаемого ключа \"homeworks\" в ответе API")) ∧
       (∀ xs, pyNoneCollapse (dictLookup fs "homeworks") = some (JSON.arr xs) →
          check_response doc = Except.ok xs) ∧
       (∀ v, pyNoneCollapse (dictLookup fs "homeworks") = some v → (∀ xs, v ≠ JSON.arr xs) →
          check_response doc =
            Except.error (PyExc.typeError "Ключ ответа API \"homeworks\" не является списком")))) := by
  refine ⟨?_, ?_⟩
  · intro h
    cases doc <;> first | rfl | exact absurd rfl (h _)
  · rintro fs rfl
    refine ⟨?_, ?_, ?_⟩
    · intro h; simp [check_response, h]
    · intro xs h; simp [check_response, h]
    · intro v h hne
      cases v
      case arr xs => exact absurd rfl (hne xs)
      all_goals simp [check_response, h]

/-- Witness for C6 (amended): an empty sequence is returned unmodified, and
a non-mapping document is rejected as not-a-mapping. -/
theorem check_response_spec_witness :
    check_response (JSON.obj [("homeworks", JSON.arr [])]) = Except.ok [] ∧
    check_response (JSON.int 7) =
      Except.error (PyExc.typeError "Программа не получает cловарь в качестве ответа API") := by
  constructor
  · exact ((check_response_spec (JSON.obj [("homeworks", JSON.arr [])])).2 _ rfl).2.1 [] rfl
  · exact (check_response_spec (JSON.int 7)).1 (fun fs h => JSON.noConfusion h)

/-- C7: on an HTTP 200 response whose body cannot be decoded as JSON,
`get_api_answer` does fail and returns no document — but the failure is a
`TypeError` raised by calling `json.JSONDecodeError` with a single argument
(homework.py line 90), not a JSON-decoding error carrying the descriptive
message computed on line 88. -/
theorem get_api_answer_undecodable_body :
    (get_api_answer
        (fun _ => HttpResult.response 200 (Body.undecodable "Expecting value: line 1 column 1 (char 0)"))
        (JSON.int 1681635226)).2 =
      Except.error (PyExc.typeError
        "JSONDecodeError.__init__ missing 2 required positional arguments: doc and pos") :=
  rfl

theorem cycleTryCore_te_irrel (reqs : List JSON) (fetched : Except PyExc JSON)
    (te : Option PyExc) (s : LoopState) :
    cycleTryCore reqs fetched te s = cycleTryCore reqs fetched none s := by
  unfold cycleTryCore
  repeat' split
  all_goals cases te <;> simp_all [send_message, bot_send_message]

theorem cycle_te_irrel (net : JSON → HttpResult) (te : Option PyExc) (s : LoopState) :
    cycle net te s = cycle net none s := by
  simp only [cycle, cycleTry, cycleTryCore_te_irrel]
  repeat' split
  all_goals cases te <;> simp_all [send_message, bot_send_message]

/-- C8: any failure raised by the transport's send is caught inside
`send_message` (which always returns normally, with a log line), and the
loop's behavior — final state, requests, notifier invocations, sleeps,
whether an exception escapes — is identical whether delivery succeeded or
failed. -/
theorem notifier_swallows_failures (te : Option PyExc) (message : String) :
    (∃ logs, send_message te message = Except.ok logs) ∧
    (∀ net s, cycle net te s = cycle net none s) := by
  exact ⟨send_message_isOk te message, fun net s => cycle_te_irrel net te s⟩

/-- C10: every loop iteration performs exactly one fixed-duration sleep of
`RETRY_PERIOD` = 600 seconds (the `finally:` clause runs on the success
branch, the deduplicated branch, the empty-submissions `continue`, and the
caught-error branch alike), and issues at most one HTTP request, so the loop
never polls twice without an intervening sleep. -/
theorem one_sleep_per_cycle (net : JSON → HttpResult) (te : Option PyExc) (s : LoopState) :
    (cycle net te s).sleeps = [RETRY_PERIOD] ∧
    RETRY_PERIOD = 600 ∧
    (cycle net te s).requests.length ≤ 1 := by
  refine ⟨?_, rfl, ?_⟩
  · simp only [cycle, cycleTry]
    repeat' split
    all_goals rfl
  · rw [cycle_requests]
    unfold get_api_answer
    split
    · simp
    · simp

/-- C5: a poll cycle whose validated submissions sequence is empty changes
nothing: the notifier is not invoked, the cursor and the last-sent message
keep their previous values, and the iteration proceeds to the fixed sleep. -/
theorem empty_cycle_frame (net : JSON → HttpResult) (te : Option PyExc) (s : LoopState)
    (response : JSON)
    (h1 : (get_api_answer net s.timestamp).2 = Except.ok response)
    (h2 : check_response response = Except.ok []) :
    (cycle net te s).state = s ∧
    (cycle net te s).notifierCalls = [] ∧
    (cycle net te s).sleeps = [RETRY_PERIOD] := by
  have ht : cycleTry net te s = ⟨s, (get_api_answer net s.timestamp).1, [], none⟩ := by
    simp only [cycleTry, cycleTryCore, h1, h2]
  refine ⟨?_, ?_, ?_⟩ <;> simp only [cycle, ht]

/-- Scenario B environment: the server answers every request with HTTP 200
and the body with an empty submissions list. -/
def emptyDoc : JSON :=
  JSON.obj [("homeworks", JSON.arr []), ("current_date", JSON.int 1700000500)]

/-- Network oracle returning `emptyDoc` for every request. -/
def emptyNet : JSON → HttpResult := fun _ => HttpResult.response 200 (Body.decoded emptyDoc)

/-- Witness for C5: Scenario B from the initial state. -/
theorem empty_cycle_frame_witness :
    (cycle emptyNet none initialState).state = initialState ∧
    (cycle emptyNet none initialState).notifierCalls = [] ∧
    (cycle emptyNet none initialState).sleeps = [RETRY_PERIOD] :=
  empty_cycle_frame emptyNet none initialState emptyDoc rfl rfl

/-- C1: every exception raised during a poll cycle — by the API client, the
response validator or the status formatter — is caught at the loop boundary:
nothing escapes the iteration, the caught error is converted to the failure
notification built from the fixed prefix `Сбой в работе программы: ` plus
the error text, the same last-sent deduplication is applied as for status
notifications, and the iteration still reaches the sleep, so the loop
continues. -/
theorem poll_cycle_catches_all (net : JSON → HttpResult) (te : Option PyExc) (s : LoopState) :
    (cycle net te s).uncaught = none ∧
    (∀ e, (cycleTry net te s).raised = some e →
      ((cycle net te s).state =
        (if (cycleTry net te s).state.old_message ≠ "Сбой в работе программы: " ++ pyExcStr e
         then ⟨(cycleTry net te s).state.timestamp, "Сбой в работе программы: " ++ pyExcStr e⟩
         else (cycleTry net te s).state) ∧
       (cycle net te s).notifierCalls =
        (if (cycleTry net te s).state.old_message ≠ "Сбой в работе программы: " ++ pyExcStr e
         then ["Сбой в работе программы: " ++ pyExcStr e]
         else []) ∧
       (cycle net te s).sleeps = [RETRY_PERIOD])) := by
  constructor
  · simp only [cycle, cycleTry]
    repeat' split
    all_goals simp_all [send_message, bot_send_message]
    all_goals cases te <;> simp_all [send_message, bot_send_message]
  · intro e he
    have hexc := (cycleTryCore_inv (get_api_answer net s.timestamp).1
        (get_api_answer net s.timestamp).2 te s).2.2
    simp only [cycleTry] at he
    have hx := hexc (by simp [he])
    simp only [cycle, cycleTry, he]
    obtain ⟨l, hl⟩ := send_message_isOk te ("Сбой в работе программы: " ++ pyExcStr e)
    rw [hl]
    split_ifs
    · exact ⟨rfl, by simp [hx.1], rfl⟩
    · exact ⟨rfl, by simp [hx.1], rfl⟩

/-- Scenario D environment: the server answers every request with HTTP 503. -/
def net503 : JSON → HttpResult := fun _ => HttpResult.response 503 (Body.decoded JSON.null)

/-- The error message raised for an HTTP 503 answer. -/
def msg503 : String := "Проблема с эндпоинтом \"" ++ ENDPOINT ++ "\". Код ответа API: 503"

/-- Witness for C1: under Scenario D the iteration swallows the
`StatusCodeIsNot200Error`, sends the prefixed failure notification, and still
sleeps. -/
theorem poll_cycle_catches_all_witness :
    (cycle net503 none initialState).uncaught = none ∧
    (cycle net503 none initialState).notifierCalls = ["Сбой в работе программы: " ++ msg503] ∧
    (cycle net503 none initialState).sleeps = [RETRY_PERIOD] := by
  have h := poll_cycle_catches_all net503 none initialState
  have h2 := h.2 (PyExc.statusCodeIsNot200Error msg503) rfl
  refine ⟨h.1, ?_, h2.2.2⟩
  rw [h2.2.1, if_pos (by decide)]
  rfl

theorem cycle_timestamp_eq (net : JSON → HttpResult) (te : Option PyExc) (s : LoopState) :
    (cycle net te s).state.timestamp = (cycleTry net te s).state.timestamp := by
  simp only [cycle]
  repeat' split
  all_goals rfl

/-- C4: after a poll cycle whose validated submissions sequence is non-empty
and whose response carries a `current_date` field, the cursor equals exactly
that server-echoed value (the assignment happens before the record is
formatted, so it holds on the formatter-error branch too), and — when that
value is an integer, as the interface specifies — it is passed verbatim as
the `from_date` parameter of the next cycle's single request. -/
theorem cursor_roundtrip (net : JSON → HttpResult) (te : Option PyExc) (s : LoopState)
    (response : JSON) (hw : JSON) (rest : List JSON) (cd : JSON)
    (h1 : (get_api_answer net s.timestamp).2 = Except.ok response)
    (h2 : check_response response = Except.ok (hw :: rest))
    (h3 : response.getItem "current_date" = Except.ok cd) :
    (cycle net te s).state.timestamp = cd ∧
    (cd.isInstInt = true →
      ∀ net2 te2, (cycle net2 te2 ((cycle net te s).state)).requests = [cd]) := by
  have hts : (cycle net te s).state.timestamp = cd := by
    rw [cycle_timestamp_eq]
    simp only [cycleTry, cycleTryCore, h1, h2, h3]
    cases hps : parse_status hw
    · simp [hps]
    · simp only [hps]
      split
      · obtain ⟨l, hl⟩ := send_message_isOk te _
        rw [hl]
      · rfl
  refine ⟨hts, fun hint net2 te2 => ?_⟩
  rw [cycle_requests, hts]
  simp [get_api_answer, hint]

/-- Scenario A document: one submission, name `proj1`, status `approved`,
`current_date` 1700000000. -/
def scenarioDoc : JSON :=
  JSON.obj
    [("homeworks", JSON.arr [JSON.obj [("homework_name", JSON.str "proj1"),
                                       ("status", JSON.str "approved")]]),
     ("current_date", JSON.int 1700000000)]

/-- Network oracle returning the Scenario A document for every request. -/
def scenarioNet : JSON → HttpResult := fun _ => HttpResult.response 200 (Body.decoded scenarioDoc)

/-- The notification text produced in Scenario A. -/
def scenarioMsg : String :=
  "Изменился статус проверки работы \"proj1\". Работа проверена: ревьюеру всё понравилось. Ура!"

/-- Witness for C4: in Scenario A the cursor becomes 1700000000 and the next
cycle's single request carries exactly that value as `from_date`. -/
theorem cursor_roundtrip_witness :
    (cycle scenarioNet none initialState).state.timestamp = JSON.int 1700000000 ∧
    (cycle scenarioNet none ((cycle scenarioNet none initialState).state)).requests =
      [JSON.int 1700000000] := by
  have h := cursor_roundtrip scenarioNet none initialState scenarioDoc
    (JSON.obj [("homework_name", JSON.str "proj1"), ("status", JSON.str "approved")]) []
    (JSON.int 1700000000) rfl rfl rfl
  exact ⟨h.1, h.2 rfl scenarioNet none⟩

/-- C9: the loop updates the last-sent message before invoking the notifier
in both the status path and the failure path: every text passed to the
notifier becomes the last-sent value even when delivery fails, and a text
passed to the notifier in one cycle is never passed again in the immediately
following cycle, whatever the two cycles' environments and delivery
outcomes — which also suppresses a failure notification equal to the last
status notification and vice versa. -/
theorem dedup_across_cycles (net1 net2 : JSON → HttpResult) (te1 te2 : Option PyExc)
    (s : LoopState) (m : String) :
    (m ∈ (cycle net1 te1 s).notifierCalls → (cycle net1 te1 s).state.old_message = m) ∧
    (m ∈ (cycle net1 te1 s).notifierCalls →
       m ∉ (cycle net2 te2 ((cycle net1 te1 s).state)).notifierCalls) := by
  have hfirst : ∀ (net : JSON → HttpResult) (te : Option PyExc) (s' : LoopState) (k : String),
      k ∈ (cycle net te s').notifierCalls → (cycle net te s').state.old_message = k := by
    intro net te s' k hm
    rcases cycle_calls_inv net te s' with ⟨hc, _⟩ | ⟨k', hc, ho, _⟩
    · rw [hc] at hm
      exact absurd hm (List.not_mem_nil k)
    · rw [hc] at hm
      obtain rfl : k = k' := by simpa using hm
      exact ho
  refine ⟨hfirst net1 te1 s m, ?_⟩
  intro hm hm2
  have h1 := hfirst net1 te1 s m hm
  rcases cycle_calls_inv net2 te2 (cycle net1 te1 s).state with ⟨hc, _⟩ | ⟨k, hc, ho, hne⟩
  · rw [hc] at hm2
    exact absurd hm2 (List.not_mem_nil m)
  · rw [hc] at hm2
    obtain rfl : m = k := by simpa using hm2
    exact hne h1

/-- Witness for C9: in Scenario A with a failing transport, the first cycle
passes the status text to the notifier (delivery fails and is swallowed),
and the second cycle — same server answer, hence the same produced text —
does not pass it again. -/
theorem dedup_across_cycles_witness :
    (cycle scenarioNet (some (PyExc.genericException "boom")) initialState).state.old_message
      = scenarioMsg ∧
    scenarioMsg ∉ (cycle scenarioNet (some (PyExc.genericException "boom"))
        ((cycle scenarioNet (some (PyExc.genericException "boom")) initialState).state)).notifierCalls := by
  have h := dedup_across_cycles scenarioNet scenarioNet
    (some (PyExc.genericException "boom")) (some (PyExc.genericException "boom"))
    initialState scenarioMsg
  have hm : scenarioMsg ∈ (cycle scenarioNet (some (PyExc.genericException "boom"))
      initialState).notifierCalls := by
    have hc : (cycle scenarioNet (some (PyExc.genericException "boom"))
        initialState).notifierCalls = [scenarioMsg] := rfl
    rw [hc]
    exact List.mem_singleton.mpr rfl
  exact ⟨h.1 hm, h.2 hm⟩
